import Mathlib

/-!
Verification of the crawl orchestration & harvesting engine
(backend/app/services) against its natural-language specification.

The Python services are shallowly embedded: pure parsing helpers become
Lean functions over `List Char` / `String`, the in-memory crawl status
tracker becomes explicit state passing over a `TrackerState` structure,
database repositories become functions over explicit lists of rows, and
fallible code returns `Option` / `Except`.  Decimal prices are modelled
exactly as rationals (`ℚ`), timestamps as integers (seconds), and the
injected clock as an explicit `now` / `today` argument.
-/

namespace HowMuch

/-! ### Generic Python string helpers -/

/-- Characters treated as whitespace by Python `str.strip()` (restricted to
the ASCII whitespace that can occur in the crawled price/availability text). -/
def isPyWs (c : Char) : Bool :=
  c = ' ' || c = '\t' || c = '\n' || c = '\x0d' || c = '\x0b' || c = '\x0c'

/-- Python `str.strip()` on a character list: drop leading and trailing
whitespace. -/
def pyStrip (cs : List Char) : List Char :=
  ((cs.dropWhile isPyWs).reverse.dropWhile isPyWs).reverse

/-- Python `str.lower()` restricted to the characters appearing in this
code base (ASCII letters plus the German umlauts used by the keyword
lists). -/
def pyLowerChar (c : Char) : Char :=
  if 'A' ≤ c ∧ c ≤ 'Z' then Char.ofNat (c.toNat + 32)
  else if c = 'Ä' then 'ä'
  else if c = 'Ö' then 'ö'
  else if c = 'Ü' then 'ü'
  else c

/-- Python `str.lower()` on a character list. -/
def pyLower (cs : List Char) : List Char := cs.map pyLowerChar

/-- Does `cs` start with `pre`?  (Python `str.startswith`.) -/
def listStartsWith : List Char → List Char → Bool
  | _, [] => true
  | [], _ :: _ => false
  | a :: as, b :: bs => a = b && listStartsWith as bs

/-- Python substring containment `needle in hay`. -/
def containsSub (needle : List Char) : List Char → Bool
  | [] => needle.isEmpty
  | c :: rest => listStartsWith (c :: rest) needle || containsSub needle rest

/-- Python `int()` of a (non-empty) digit string. -/
def digitsToNat (ds : List Char) : ℕ :=
  ds.foldl (fun a c => 10 * a + (c.toNat - '0'.toNat)) 0

/-- Python slicing `s[:n]` on strings. -/
def pyTakeStr (n : ℕ) (s : String) : String := String.mk (s.toList.take n)

/-! ### Price parsing

Embeds `LidlUltimateCrawler._parse_price` (lidl_crawler_ultimate.py
lines 523-565); `AldiUltimateCrawler._parse_price` (aldi_crawler_ultimate.py
lines 555-596) is character-for-character the same function. -/

/-- `re.sub(r'[^\d,.-]', '', s)`: keep only digits, commas, points and
minus signs. -/
def cleanSub (cs : List Char) : List Char :=
  cs.filter (fun c => c.isDigit || c = ',' || c = '.' || c = '-')

/-- The four leading-separator special cases of `_parse_price`
(cent prices such as "-.90", ".90", "-,90", ",90"). -/
def centSpecialCases (cp : List Char) : List Char :=
  if listStartsWith cp ['-', '.'] ∧ cp.length ≤ 4 then
    '0' :: cp.drop 1
  else if listStartsWith cp ['.'] ∧ cp.length ≤ 3 then
    '0' :: cp
  else if listStartsWith cp ['-', ','] ∧ cp.length ≤ 4 then
    '0' :: '.' :: cp.drop 2
  else if listStartsWith cp [','] ∧ cp.length ≤ 3 then
    '0' :: '.' :: cp.drop 1
  else cp

/-- Body of the regex `\d*\.?\d+` matched greedily (with backtracking) at
the head of `cs`; returns the matched characters. -/
def numBodyAt (cs : List Char) : Option (List Char) :=
  let ds := cs.takeWhile Char.isDigit
  let rest := cs.drop ds.length
  if ds.isEmpty then
    match rest with
    | '.' :: r2 =>
      let ds2 := r2.takeWhile Char.isDigit
      if ds2.isEmpty then none else some ('.' :: ds2)
    | _ => none
  else
    match rest with
    | '.' :: r2 =>
      let ds2 := r2.takeWhile Char.isDigit
      if ds2.isEmpty then some ds else some (ds ++ '.' :: ds2)
    | _ => some ds

/-- The regex `-?\d*\.?\d+` matched at the head of `cs`.  When the leading
character is a minus the body must follow it (the alternative without the
minus cannot match at the same position, since a minus is neither a digit
nor a point). -/
def numMatchAt (cs : List Char) : Option (List Char) :=
  match cs with
  | '-' :: rest => (numBodyAt rest).map (fun m => '-' :: m)
  | _ => numBodyAt cs

/-- `re.search(r'(-?\d*\.?\d+)', s)`: leftmost match of the price pattern. -/
def reSearchNum : List Char → Option (List Char)
  | [] => none
  | c :: rest =>
    match numMatchAt (c :: rest) with
    | some m => some m
    | none => reSearchNum rest

/-- Exact model of a Python `Decimal` value as produced by
`Decimal(price_str)`: an integer coefficient and a decimal exponent; the
value denoted is `num / 10 ^ exp`. -/
structure Dec where
  num : ℤ
  exp : ℕ
deriving DecidableEq, Repr

/-- The rational value denoted by a `Dec`. -/
def Dec.toRat (d : Dec) : ℚ := (d.num : ℚ) / 10 ^ d.exp

/-- `Decimal(price_str)` on an unsigned match (digits, optionally followed
by a point and digits). -/
def decUnsigned (cs : List Char) : Dec :=
  let ds := cs.takeWhile Char.isDigit
  let rest := cs.drop ds.length
  match rest with
  | '.' :: fs =>
    ⟨(digitsToNat ds * 10 ^ fs.length + digitsToNat fs : ℕ), fs.length⟩
  | _ => ⟨(digitsToNat ds : ℕ), 0⟩

/-- `Decimal(price_str)` on a match of `-?\d*\.?\d+`. -/
def decOfMatch (m : List Char) : Dec :=
  match m with
  | '-' :: rest =>
    let d := decUnsigned rest
    ⟨-d.num, d.exp⟩
  | _ => decUnsigned m

/-- `_parse_price`: strips everything but digits/commas/points/minus,
rewrites bare fractional cent prices with an explicit zero integer part,
normalizes commas to points, extracts the first numeric pattern and, if the
value is negative, replaces it by its absolute value.  Returns `none` for
empty input or when no numeric pattern remains.  (The `Decimal` constructor
cannot fail on the extracted match, so the `except` branch of the source is
unreachable.)  A `Decimal` is negative exactly when its coefficient is. -/
def parsePrice (s : String) : Option Dec :=
  if s = "" then none
  else
    let cp0 := cleanSub (pyStrip s.toList)
    let cp1 := centSpecialCases cp0
    let cp2 := cp1.map (fun c => if c = ',' then '.' else c)
    match reSearchNum cp2 with
    | some m =>
      let v := decOfMatch m
      some (if v.num < 0 then ⟨-v.num, v.exp⟩ else v)
    | none => none

/-! ### Dates

Model of the `datetime` values used by `_parse_availability_and_date`.
`rataDie` is the standard days-from-civil computation, so that the
difference of two `rataDie` values is exactly the `.days` of the Python
`date` subtraction. -/

/-- A calendar date as used by `datetime(year, month, day)`. -/
structure PyDate where
  year : ℕ
  month : ℕ
  day : ℕ
deriving DecidableEq, Repr

/-- Gregorian leap year. -/
def isLeap (y : ℕ) : Bool := y % 4 = 0 && (y % 100 ≠ 0 || y % 400 = 0)

/-- Days in a month of a given year. -/
def daysInMonth (y m : ℕ) : ℕ :=
  if m = 2 then (if isLeap y then 29 else 28)
  else if m = 4 ∨ m = 6 ∨ m = 9 ∨ m = 11 then 30
  else 31

/-- Whether `datetime(y, m, d)` succeeds (otherwise it raises
`ValueError`). -/
def isValidDate (y m d : ℕ) : Bool :=
  1 ≤ y && y ≤ 9999 && 1 ≤ m && m ≤ 12 && 1 ≤ d && d ≤ daysInMonth y m

/-- Day number of a date (days-from-civil); differences of day numbers give
the `.days` of a Python `date` subtraction. -/
def rataDie (dt : PyDate) : ℕ :=
  let y := if dt.month ≤ 2 then dt.year - 1 else dt.year
  let era := y / 400
  let yoe := y % 400
  let mp := (dt.month + 9) % 12
  let doy := (153 * mp + 2) / 5 + dt.day - 1
  let doe := yoe * 365 + yoe / 4 - yoe / 100 + doy
  era * 146097 + doe

/-- Python `datetime` comparison (chronological = lexicographic on
year, month, day), as a Boolean. -/
def dateLtB (a b : PyDate) : Bool :=
  a.year < b.year ||
    (a.year = b.year &&
      (a.month < b.month || (a.month = b.month && a.day < b.day)))

/-- Non-strict date comparison. -/
def dateLeB (a b : PyDate) : Bool := !(dateLtB b a)

/-- Python `max(list)` over dates: keep the current maximum, replacing it
when a strictly later element appears. -/
def pyMaxDate (d : PyDate) (ds : List PyDate) : PyDate :=
  ds.foldl (fun acc x => if dateLtB acc x then x else acc) d

/-! ### Availability parsing

Embeds `_parse_availability_and_date` (lidl_crawler_ultimate.py lines
449-521; aldi_crawler_ultimate.py lines 482-553 is the same function).
The two regex patterns `\d{1,2}\.\d{1,2}\.\d{4}` and `\d{1,2}\.\d{1,2}\.`
are embedded with Python `re.findall` semantics: leftmost, non-overlapping
matches with greedy `\d{1,2}` groups and backtracking. -/

/-- Exactly `n` digits at the head of the list; returns the digits and the
rest. -/
def takeExactDigits : ℕ → List Char → Option (List Char × List Char)
  | 0, cs => some ([], cs)
  | _ + 1, [] => none
  | n + 1, c :: cs =>
    if c.isDigit then
      (takeExactDigits n cs).map (fun p => (c :: p.1, p.2))
    else none

/-- A literal point. -/
def expectDot : List Char → Option (List Char)
  | '.' :: cs => some cs
  | _ => none

/-- Match `\d{g1}\.\d{g2}\.\d{4}` at the head of `cs`; returns the three
groups as numbers plus the number of characters consumed. -/
def matchDMYFrom (g1 g2 : ℕ) (cs : List Char) : Option ((ℕ × ℕ × ℕ) × ℕ) := do
  let p1 ← takeExactDigits g1 cs
  let r2 ← expectDot p1.2
  let p2 ← takeExactDigits g2 r2
  let r4 ← expectDot p2.2
  let p3 ← takeExactDigits 4 r4
  pure ((digitsToNat p1.1, digitsToNat p2.1, digitsToNat p3.1), g1 + 1 + g2 + 1 + 4)

/-- Match `(\d{1,2})\.(\d{1,2})\.(\d{4})` at the head of `cs` with the
backtracking order of the regex engine: group lengths (2,2), (2,1), (1,2),
(1,1). -/
def matchDMYAt (cs : List Char) : Option ((ℕ × ℕ × ℕ) × ℕ) :=
  match matchDMYFrom 2 2 cs with
  | some r => some r
  | none =>
    match matchDMYFrom 2 1 cs with
    | some r => some r
    | none =>
      match matchDMYFrom 1 2 cs with
      | some r => some r
      | none => matchDMYFrom 1 1 cs

/-- Match `\d{g1}\.\d{g2}\.` at the head of `cs`. -/
def matchDMFrom (g1 g2 : ℕ) (cs : List Char) : Option ((ℕ × ℕ) × ℕ) := do
  let p1 ← takeExactDigits g1 cs
  let r2 ← expectDot p1.2
  let p2 ← takeExactDigits g2 r2
  let _ ← expectDot p2.2
  pure ((digitsToNat p1.1, digitsToNat p2.1), g1 + 1 + g2 + 1)

/-- Match `(\d{1,2})\.(\d{1,2})\.` at the head of `cs` with regex
backtracking order. -/
def matchDMAt (cs : List Char) : Option ((ℕ × ℕ) × ℕ) :=
  match matchDMFrom 2 2 cs with
  | some r => some r
  | none =>
    match matchDMFrom 2 1 cs with
    | some r => some r
    | none =>
      match matchDMFrom 1 2 cs with
      | some r => some r
      | none => matchDMFrom 1 1 cs

/-- `re.findall` for the day.month.year pattern: scan left to right,
continuing after the end of each match.  The fuel argument (the length of
the list) bounds the recursion; every step consumes at least one
character. -/
def findAllDMYAux : ℕ → List Char → List (ℕ × ℕ × ℕ)
  | 0, _ => []
  | _ + 1, [] => []
  | fuel + 1, c :: rest =>
    match matchDMYAt (c :: rest) with
    | some (g, len) => g :: findAllDMYAux fuel ((c :: rest).drop len)
    | none => findAllDMYAux fuel rest

/-- All matches of `(\d{1,2})\.(\d{1,2})\.(\d{4})`. -/
def findAllDMY (cs : List Char) : List (ℕ × ℕ × ℕ) := findAllDMYAux cs.length cs

/-- `re.findall` for the day.month. pattern. -/
def findAllDMAux : ℕ → List Char → List (ℕ × ℕ)
  | 0, _ => []
  | _ + 1, [] => []
  | fuel + 1, c :: rest =>
    match matchDMAt (c :: rest) with
    | some (g, len) => g :: findAllDMAux fuel ((c :: rest).drop len)
    | none => findAllDMAux fuel rest

/-- All matches of `(\d{1,2})\.(\d{1,2})\.`. -/
def findAllDM (cs : List Char) : List (ℕ × ℕ) := findAllDMAux cs.length cs

/-- Process one `DD.MM.YYYY` match: validate `1 ≤ month ≤ 12` and
`1 ≤ day ≤ 31`, then construct the datetime (a `ValueError` drops the
match). -/
def procDMY (g : ℕ × ℕ × ℕ) : Option PyDate :=
  let d := g.1
  let m := g.2.1
  let y := g.2.2
  if 1 ≤ m ∧ m ≤ 12 ∧ 1 ≤ d ∧ d ≤ 31 then
    if isValidDate y m d then some ⟨y, m, d⟩ else none
  else none

/-- Process one `DD.MM.` match: infer the year as the current year, unless
that date lies more than 30 days in the past, in which case the next year
is taken; a `ValueError` while probing the current year keeps the current
year.  Then validate as for full dates. -/
def procDM (today : PyDate) (g : ℕ × ℕ) : Option PyDate :=
  let d := g.1
  let m := g.2
  let currentYear := today.year
  let year :=
    if isValidDate currentYear m d then
      if (rataDie today : ℤ) - (rataDie ⟨currentYear, m, d⟩ : ℤ) > 30 then
        currentYear + 1
      else currentYear
    else currentYear
  if 1 ≤ m ∧ m ≤ 12 ∧ 1 ≤ d ∧ d ≤ 31 then
    if isValidDate year m d then some ⟨year, m, d⟩ else none
  else none

/-- All dates found in a (stripped) availability text: first the matches of
the four-digit-year pattern, then those of the year-less pattern, in source
order. -/
def datesFound (today : PyDate) (cs : List Char) : List PyDate :=
  (findAllDMY cs).filterMap procDMY ++ (findAllDM cs).filterMap (procDM today)

/-- The fixed negative-keyword list of `_parse_availability_and_date`. -/
def unavailableIndicators : List String :=
  ["nicht verfügbar", "ausverkauft", "vergriffen", "nicht lieferbar"]

/-- `_parse_availability_and_date`: empty text is available with no
constraint; a negative keyword (checked on the lowercased stripped text)
forces unavailability; the latest date found becomes `valid_until`, and a
`valid_until` strictly before today forces unavailability.  `today` is the
value of `datetime.now()`.  The `valid_until` component is returned as a
date (the source formats it `%Y-%m-%d`, which is injective). -/
def parseAvailabilityAndDate (today : PyDate) (text : String) :
    Bool × Option String × Option PyDate :=
  if text = "" then (true, none, none)
  else
    let t := pyStrip text.toList
    let unavailable :=
      unavailableIndicators.any (fun ind => containsSub ind.toList (pyLower t))
    let avail0 := !unavailable
    match datesFound today t with
    | [] => (avail0, some (String.mk t), none)
    | d :: ds =>
      let latest := pyMaxDate d ds
      ((if dateLtB latest today then false else avail0), some (String.mk t),
        some latest)

/-! ### Crawl status tracker

Embeds `CrawlStatusService` (crawl_status_service.py).  Timestamps are
integers (seconds); `datetime.utcnow()` is the explicit `now` argument (the
two `utcnow()` calls inside `start_crawl` are modelled as the same
instant).  Crawl ids are natural numbers; `uuid.uuid4()` is the explicit
`newId` argument.  Python dicts become insertion-ordered association
lists. -/

/-- Crawl status enumeration. -/
inductive CrawlStatus where
  | pending | initializing | crawling | processing | completed | failed | cancelled
deriving DecidableEq, Repr

/-- Type of crawl operation. -/
inductive CrawlType where
  | manual | scheduled | triggered
deriving DecidableEq, Repr

/-- The `CrawlProgress` dataclass.  `progress_percentage` is modelled as an
exact rational. -/
structure CrawlProgress where
  crawlId : ℕ
  storeName : String
  status : CrawlStatus
  crawlType : CrawlType
  startedAt : ℤ
  completedAt : Option ℤ := none
  progressPercentage : ℚ := 0
  currentStep : String := "Initializing"
  productsFound : ℕ := 0
  productsProcessed : ℕ := 0
  errorsCount : ℕ := 0
  estimatedCompletion : Option ℤ := none
  postalCode : String := "10115"
  triggeredBy : String := "system"
  errorDetails : Option String := none
  sessionId : Option ℕ := none
deriving DecidableEq, Repr

/-- The mutable state of `CrawlStatusService`. -/
structure TrackerState where
  activeCrawls : List (ℕ × CrawlProgress) := []
  completedCrawls : List CrawlProgress := []
  lastCrawlAttempts : List (String × ℤ) := []
deriving DecidableEq, Repr

/-- `_max_completed_history`. -/
def maxCompletedHistory : ℕ := 50

/-- `_min_crawl_interval` (`timedelta(minutes=5)`), in seconds. -/
def minCrawlInterval : ℤ := 300

/-- Association-list lookup for ℕ keys (Python `dict` access). -/
def lookupNat (l : List (ℕ × CrawlProgress)) (k : ℕ) : Option CrawlProgress :=
  match l with
  | [] => none
  | (k2, v) :: rest => if k2 = k then some v else lookupNat rest k

/-- Association-list lookup for string keys. -/
def lookupStr (l : List (String × ℤ)) (k : String) : Option ℤ :=
  match l with
  | [] => none
  | (k2, v) :: rest => if k2 = k then some v else lookupStr rest k

/-- Python dict assignment for ℕ keys: replace in place if present,
otherwise append. -/
def dictInsertNat (l : List (ℕ × CrawlProgress)) (k : ℕ) (v : CrawlProgress) :
    List (ℕ × CrawlProgress) :=
  match l with
  | [] => [(k, v)]
  | (k2, v2) :: rest =>
    if k2 = k then (k, v) :: rest else (k2, v2) :: dictInsertNat rest k v

/-- Python dict assignment for string keys. -/
def dictInsertStr (l : List (String × ℤ)) (k : String) (v : ℤ) :
    List (String × ℤ) :=
  match l with
  | [] => [(k, v)]
  | (k2, v2) :: rest =>
    if k2 = k then (k, v) :: rest else (k2, v2) :: dictInsertStr rest k v

/-- Python `del` on a ℕ-keyed dict. -/
def dictRemoveNat (l : List (ℕ × CrawlProgress)) (k : ℕ) :
    List (ℕ × CrawlProgress) :=
  match l with
  | [] => []
  | (k2, v2) :: rest =>
    if k2 = k then rest else (k2, v2) :: dictRemoveNat rest k

/-- `_is_rate_limited`: a store is rate limited while less than
`_min_crawl_interval` has passed since its last recorded attempt. -/
def isRateLimited (st : TrackerState) (now : ℤ) (storeName : String) : Bool :=
  match lookupStr st.lastCrawlAttempts storeName with
  | none => false
  | some t => now - t < minCrawlInterval

/-- Typed rejection of `start_crawl` (the source raises `ValueError` with a
message carrying the next-allowed time for the rate-limited case). -/
inductive StartErr where
  | rateLimited (nextAllowed : ℤ)
  | alreadyRunning
deriving DecidableEq, Repr

instance {ε α : Type} [DecidableEq ε] [DecidableEq α] :
    DecidableEq (Except ε α) := fun a b =>
  match a, b with
  | .ok x, .ok y => decidable_of_iff (x = y) (by simp)
  | .error x, .error y => decidable_of_iff (x = y) (by simp)
  | .ok _, .error _ => isFalse (fun h => Except.noConfusion h)
  | .error _, .ok _ => isFalse (fun h => Except.noConfusion h)

/-- `start_crawl`: rejects when rate limited (reporting
`last_attempt + min_interval` as the next allowed time), then rejects when
some active crawl of the same store is in `CRAWLING` or `PROCESSING`;
otherwise creates a `PENDING` job, records it in the active set and updates
the rate-limit window to `now` immediately. -/
def startCrawl (st : TrackerState) (now : ℤ) (newId : ℕ) (storeName : String)
    (crawlType : CrawlType) (postalCode triggeredBy : String)
    (sessionId : Option ℕ) : Except StartErr (ℕ × TrackerState) :=
  if isRateLimited st now storeName then
    match lookupStr st.lastCrawlAttempts storeName with
    | some t => .error (.rateLimited (t + minCrawlInterval))
    | none => .error (.rateLimited minCrawlInterval)
  else if st.activeCrawls.any (fun kv =>
      kv.2.storeName == storeName &&
        (kv.2.status == CrawlStatus.crawling ||
          kv.2.status == CrawlStatus.processing)) then
    .error .alreadyRunning
  else
    let progress : CrawlProgress :=
      { crawlId := newId, storeName := storeName, status := .pending,
        crawlType := crawlType, startedAt := now, postalCode := postalCode,
        triggeredBy := triggeredBy, sessionId := sessionId }
    .ok (newId,
      { st with
        activeCrawls := dictInsertNat st.activeCrawls newId progress,
        lastCrawlAttempts := dictInsertStr st.lastCrawlAttempts storeName now })

/-- The field updates applied by `complete_crawl` to the looked-up job:
status, `completed_at = now`, percentage forced to 100, step "Completed",
the optional final product count, and the error details when truthy. -/
def finalizeCrawl (crawl : CrawlProgress) (now : ℤ) (status : CrawlStatus)
    (finalProductsCount : Option ℕ) (errorDetails : Option String) :
    CrawlProgress :=
  let c1 := { crawl with
    status := status, completedAt := some now,
    progressPercentage := (100 : ℚ), currentStep := "Completed" }
  let c2 := match finalProductsCount with
    | some n => { c1 with productsProcessed := n }
    | none => c1
  match errorDetails with
  | some e => if e = "" then c2 else { c2 with errorDetails := some e }
  | none => c2

/-- `complete_crawl`: unknown ids are a no-op returning failure; otherwise
the job is finalized, appended to the completed history, removed from the
active set, and the history is truncated to its last
`maxCompletedHistory` entries (`self._completed_crawls[-50:]`). -/
def completeCrawl (st : TrackerState) (now : ℤ) (crawlId : ℕ)
    (status : CrawlStatus) (finalProductsCount : Option ℕ)
    (errorDetails : Option String) : Bool × TrackerState :=
  match lookupNat st.activeCrawls crawlId with
  | none => (false, st)
  | some crawl =>
    let c3 := finalizeCrawl crawl now status finalProductsCount errorDetails
    let hist := st.completedCrawls ++ [c3]
    let hist' :=
      if maxCompletedHistory < hist.length then
        hist.drop (hist.length - maxCompletedHistory)
      else hist
    (true,
      { st with
        activeCrawls := dictRemoveNat st.activeCrawls crawlId,
        completedCrawls := hist' })

/-! ### Store provisioning

Embeds `CrawlerService._ensure_store_exists` (crawler_service.py lines
42-112).  The two repository reads and the creation attempt are explicit
arguments (the coordinator performs them through the storage layer); the
function captures the control flow around them. -/

/-- A row of the `stores` table as the coordinator sees it. -/
structure StoreRow where
  id : ℕ
  name : String
  logoUrl : Option String := none
  baseUrl : Option String := none
  enabled : Bool := true
deriving DecidableEq, Repr

/-- The store names with a registered crawler (`self.crawlers`); the
`store_metadata` dict has exactly the same keys. -/
def crawlerNames : List String := ["Lidl", "Aldi"]

/-- The substrings used to recognize a uniqueness violation in a storage
error message. -/
def uniqueConstraintIndicators : List String :=
  ["unique constraint", "duplicate key", "integrity constraint",
   "violates unique constraint", "duplicate entry"]

/-- `str(e).lower()` followed by the indicator scan. -/
def isUniqueConstraintError (msg : String) : Bool :=
  uniqueConstraintIndicators.any
    (fun ind => containsSub ind.toList (pyLower msg.toList))

/-- The error actually produced by the creation attempt in this code base:
`_ensure_store_exists` calls `stores.create(name=..., base_url=...,
logo_url=..., enabled=...)`, but `StoreRepository.create`
(database_service.py lines 39-48) accepts only `name`, `logo_url` and
`base_url`, so Python raises `TypeError` at the call itself, before any
storage work.  (The quotes of the runtime message around the word enabled
are dropped; only the absence of the uniqueness indicators matters.) -/
def storeCreateCallError : String :=
  "StoreRepository.create() got an unexpected keyword argument enabled"

/-- `_ensure_store_exists` given the outcome of the first lookup, of the
creation attempt, and of the retry lookup: supported stores only; an
existing row is returned as-is; otherwise the creation attempt is made, a
failure matching a uniqueness indicator triggers one re-read (whose empty
result re-raises the original error), and any other failure propagates
immediately. -/
def ensureStoreExists (storeName : String) (firstLookup : Option StoreRow)
    (createResult : Except String StoreRow) (retryLookup : Option StoreRow) :
    Except String StoreRow :=
  if storeName ∈ crawlerNames then
    match firstLookup with
    | some s => .ok s
    | none =>
      match createResult with
      | .ok s => .ok s
      | .error e =>
        if isUniqueConstraintError e then
          match retryLookup with
          | some s => .ok s
          | none => .error e
        else .error e
  else .error ("No crawler available for store: " ++ storeName)

/-! ### Deduplication

Embeds `CrawlerService._deduplicate_products` (crawler_service.py lines
370-399) over the fields of `ProductResult` that it reads.  Prices are
exact rationals; Python renders a price into the key with `str`, which is
injective on the float values compared here, so the key keeps the number
itself, with `none` standing for "no_price" (used for a missing price and,
by Python truthiness, also for a price of exactly 0). -/

/-- The slice of `ProductResult` used by deduplication and by the
processing phase of `crawl_store`. -/
structure ProductRec where
  name : String
  store : String
  price : Option ℚ := none
  description : Option String := none
  imageUrl : Option String := none
deriving DecidableEq, Repr

/-- Python truthiness of an optional string (`None` and `""` are falsy). -/
def truthyStr (o : Option String) : Bool :=
  match o with
  | none => false
  | some s => s ≠ ""

/-- The deduplication key: lowercased-then-stripped name, lowercased store
name (an absent store name lowers to the empty string either way), and the
price component. -/
def dedupKey (p : ProductRec) : String × String × Option ℚ :=
  (String.mk (pyStrip (pyLower p.name.toList)),
   String.mk (pyLower p.store.toList),
   match p.price with
   | some q => if q = 0 then none else some q
   | none => none)

/-- Does the new record carry optional detail (description or image) that
the kept record lacks? -/
def richerThan (p existing : ProductRec) : Bool :=
  (truthyStr p.description && !truthyStr existing.description) ||
    (truthyStr p.imageUrl && !truthyStr existing.imageUrl)

/-- The `seen_products` dict keyed by `dedupKey`. -/
def lookupKey (l : List ((String × String × Option ℚ) × ProductRec))
    (k : String × String × Option ℚ) : Option ProductRec :=
  match l with
  | [] => none
  | (k2, v) :: rest => if k2 = k then some v else lookupKey rest k

/-- Dict assignment on `seen_products`. -/
def replaceKey (l : List ((String × String × Option ℚ) × ProductRec))
    (k : String × String × Option ℚ) (v : ProductRec) :
    List ((String × String × Option ℚ) × ProductRec) :=
  match l with
  | [] => [(k, v)]
  | (k2, v2) :: rest =>
    if k2 = k then (k, v) :: rest else (k2, v2) :: replaceKey rest k v

/-- The loop state of `_deduplicate_products`: the `seen_products` dict and
the `unique_products` list. -/
structure DedupState where
  seen : List ((String × String × Option ℚ) × ProductRec) := []
  uniq : List ProductRec := []
deriving DecidableEq, Repr

/-- One iteration of the deduplication loop: a new key is recorded and the
record appended; on a duplicate key, the richer record replaces the kept
one (the kept record is filtered out of the list and the new one appended),
otherwise nothing changes. -/
def dedupStep (st : DedupState) (p : ProductRec) : DedupState :=
  let k := dedupKey p
  match lookupKey st.seen k with
  | none => ⟨st.seen ++ [(k, p)], st.uniq ++ [p]⟩
  | some existing =>
    if richerThan p existing then
      ⟨replaceKey st.seen k p,
       (st.uniq.filter (fun q => q ≠ existing)) ++ [p]⟩
    else st

/-- `_deduplicate_products`. -/
def deduplicateProducts (ps : List ProductRec) : List ProductRec :=
  (ps.foldl dedupStep {}).uniq

/-- The `seen_products` dict after processing a batch. -/
def dedupSeen (ps : List ProductRec) :
    List ((String × String × Option ℚ) × ProductRec) :=
  (ps.foldl dedupStep {}).seen

/-! ### Soft-delete aging

Embeds `ProductRepository.soft_delete_old_products` (database_service.py
lines 202-222) and the guard around its call in `CrawlerService.crawl_store`
(crawler_service.py lines 234-253). -/

/-- The columns of a `products` row read or written by the soft delete. -/
structure CatalogItem where
  id : ℕ
  storeId : ℕ
  createdAt : ℤ
  deletedAt : Option ℤ := none
deriving DecidableEq, Repr

/-- `soft_delete_old_products`: set `deleted_at = now` on every non-deleted
row of the store created before the cutoff; returns the new table and the
number of rows marked. -/
def softDeleteOldProducts (storeId : ℕ) (cutoff now : ℤ)
    (db : List CatalogItem) : List CatalogItem × ℕ :=
  (db.map (fun it =>
      if it.storeId = storeId ∧ it.createdAt < cutoff ∧ it.deletedAt = none
      then { it with deletedAt := some now } else it),
   (db.filter (fun it =>
      it.storeId = storeId ∧ it.createdAt < cutoff ∧ it.deletedAt = none)).length)

/-- `timedelta(days=7)` in seconds. -/
def freshnessWindow : ℤ := 7 * 86400

/-- The aging slice of the processing phase of `crawl_store`: the harvested
batch is deduplicated and, only if the result is non-empty, the soft delete
with cutoff `now − 7 days` runs against the catalog (the conversion and
bulk insert that follow inside the same guard are modelled separately). -/
def crawlStoreAging (storeId : ℕ) (allProducts : List ProductRec)
    (db : List CatalogItem) (now : ℤ) : List CatalogItem :=
  if (deduplicateProducts allProducts).isEmpty then db
  else (softDeleteOldProducts storeId (now - freshnessWindow) now db).1

/-! ### Record conversion and bulk persistence

Embeds `CrawlerService._convert_product_to_db_format` (crawler_service.py
lines 401-445) and `ProductRepository.bulk_create` (database_service.py
lines 176-200).  The converter is modelled over a record carrying every
attribute it reads (the availability parser of the crawlers produces the
`availability_text` / `offer_valid_until` values); `_extract_category` and
`_extract_brand` are keyword heuristics passed as parameters, since no
claim depends on their output.  Note that `availability` reaches the
converter as a boolean (`ProductResult.availability : bool`), so the
`isinstance(..., str)` branch is dead and `availability_bool` is the field
itself. -/

/-- The attributes of a crawled product record read by the converter. -/
structure CrawledProduct where
  name : String
  price : Option ℚ := none
  description : Option String := none
  brand : Option String := none
  category : Option String := none
  unit : Option String := none
  availability : Bool := true
  availabilityText : Option String := none
  offerValidUntil : Option String := none
  imageUrl : Option String := none
  productUrl : Option String := none

/-- `x[:n] if x else None`: Python truthiness plus slicing. -/
def optTrunc (n : ℕ) (o : Option String) : Option String :=
  match o with
  | none => none
  | some s => if s = "" then none else some (pyTakeStr n s)

/-- The dict returned by `_convert_product_to_db_format` (its thirteen
keys). -/
structure ConvertedRecord where
  name : String
  description : Option String
  brand : Option String
  category : Option String
  storeId : ℕ
  price : Option ℚ
  unit : Option String
  availability : Bool
  availabilityText : Option String
  offerValidUntil : Option String
  imageUrl : Option String
  productUrl : Option String
  postalCode : String
deriving DecidableEq, Repr

/-- `_convert_product_to_db_format`; `extractCategory` and `extractBrand`
stand for `_extract_category` / `_extract_brand`.  `Decimal(str(price))`
cannot fail on an actual number, so `price` carries over exactly. -/
def convertProductToDbFormat
    (extractCategory extractBrand : CrawledProduct → Option String)
    (p : CrawledProduct) (storeId : ℕ) (postalCode : String) :
    ConvertedRecord :=
  let category := extractCategory p
  let brand :=
    match p.brand with
    | some b => if b = "" then extractBrand p else some b
    | none => extractBrand p
  { name := pyTakeStr 255 p.name,
    description := optTrunc 1000 p.description,
    brand := optTrunc 100 brand,
    category := optTrunc 100 category,
    storeId := storeId,
    price := p.price,
    unit := optTrunc 50 p.unit,
    availability := p.availability,
    availabilityText := optTrunc 255 p.availabilityText,
    offerValidUntil := p.offerValidUntil,
    imageUrl := optTrunc 500 p.imageUrl,
    productUrl := optTrunc 500 p.productUrl,
    postalCode := postalCode }

/-- A row of the `products` table as constructed by `bulk_create` through
the `DatabaseProduct` ORM model.  The `availability_text` and
`offer_valid_until` columns exist in the table (migration
`add_availability_fields`) but are not attributes of the ORM model, so an
insert always leaves them NULL. -/
structure DbProductRow where
  name : String
  description : Option String
  brand : Option String
  category : Option String
  storeId : ℕ
  price : Option ℚ
  unit : Option String
  availability : Bool
  imageUrl : Option String
  productUrl : Option String
  postalCode : Option String
  crawlSessionId : Option ℕ
  availabilityTextCol : Option String
  offerValidUntilCol : Option String
deriving DecidableEq, Repr

/-- The `DatabaseProduct(...)` construction inside `bulk_create`: only the
listed keys of the converted dict are read; the two availability columns
are never touched. -/
def bulkCreateRow (sessionId : ℕ) (rec : ConvertedRecord) : DbProductRow :=
  { name := rec.name,
    description := rec.description,
    brand := rec.brand,
    category := rec.category,
    storeId := rec.storeId,
    price := rec.price,
    unit := rec.unit,
    availability := rec.availability,
    imageUrl := rec.imageUrl,
    productUrl := rec.productUrl,
    postalCode := some rec.postalCode,
    crawlSessionId := some sessionId,
    availabilityTextCol := none,
    offerValidUntilCol := none }

/-- `bulk_create`: maps every converted dict to a row and returns the rows
together with their count. -/
def bulkCreate (recs : List ConvertedRecord) (sessionId : ℕ) :
    List DbProductRow × ℕ :=
  (recs.map (bulkCreateRow sessionId), recs.length)

/-! ## Supporting lemmas -/

/-- Whitespace characters are removed by the currency-symbol filter as
well. -/
lemma cleanKeep_of_ws (c : Char) (h : isPyWs c = true) :
    (c.isDigit || c = ',' || c = '.' || c = '-') = false := by
  simp only [isPyWs, Bool.or_eq_true, decide_eq_true_eq] at h
  rcases h with ((((h | h) | h) | h) | h) | h <;> subst h <;> decide

/-- Filtering after a `dropWhile` whose predicate implies rejection is
filtering the original list. -/
lemma filter_dropWhile_of (p q : Char → Bool)
    (h : ∀ c, q c = true → p c = false) :
    ∀ l : List Char, (l.dropWhile q).filter p = l.filter p := by
  intro l
  induction l with
  | nil => rfl
  | cons c rest ih =>
    by_cases hq : q c = true
    · rw [List.dropWhile_cons_of_pos hq, ih, List.filter_cons_of_neg]
      simp [h c hq]
    · rw [List.dropWhile_cons_of_neg hq]

/-- `str.strip()` does not change the result of the currency-symbol
filter. -/
lemma cleanSub_pyStrip (cs : List Char) : cleanSub (pyStrip cs) = cleanSub cs := by
  unfold pyStrip cleanSub
  rw [List.filter_reverse, filter_dropWhile_of _ _ cleanKeep_of_ws,
    List.filter_reverse, List.reverse_reverse,
    filter_dropWhile_of _ _ cleanKeep_of_ws]

/-- A price parsed by `_parse_price` has a non-negative coefficient (the
absolute value is taken). -/
lemma parsePrice_nonneg (s : String) (d : Dec) (h : parsePrice s = some d) :
    0 ≤ d.num := by
  unfold parsePrice at h
  split at h
  · exact Option.noConfusion h
  · rcases hm : reSearchNum ((centSpecialCases
        (cleanSub (pyStrip s.toList))).map
          (fun c => if c = ',' then '.' else c)) with _ | m
    · simp only [hm] at h
      exact Option.noConfusion h
    · simp only [hm, Option.some.injEq] at h
      subst h
      by_cases hneg : (decOfMatch m).num < 0
      · rw [if_pos hneg]
        show 0 ≤ -(decOfMatch m).num
        omega
      · rw [if_neg hneg]
        omega

/-- Prepending a currency symbol to a non-empty price text does not change
the parse. -/
lemma parsePrice_euro (s : String) (hs : s ≠ "") :
    parsePrice (String.mk ('€' :: s.toList)) = parsePrice s := by
  have hne : String.mk ('€' :: s.toList) ≠ "" := by
    intro h
    have := congrArg String.data h
    simp at this
  unfold parsePrice
  rw [if_neg hne, if_neg hs]
  have hclean : cleanSub (pyStrip (String.mk ('€' :: s.toList)).toList) =
      cleanSub (pyStrip s.toList) := by
    rw [cleanSub_pyStrip, cleanSub_pyStrip]
    show cleanSub ('€' :: s.toList) = cleanSub s.toList
    unfold cleanSub
    rw [List.filter_cons_of_neg (by decide)]
  rw [hclean]

/-! ## Claim C1 — price parsing -/

/-- Claim C1, counterexample: the claim says any result outside the range
0.01–999.99 is rejected as `NotAPrice` (`None`), and in particular
`"1000" → NotAPrice`; but `_parse_price` of the ultimate crawlers has no
range check, and `"1000"` parses to the value 1000, which exceeds
999.99. -/
theorem parsePrice_C1_counterexample :
    parsePrice "1000" = some (Dec.mk 1000 0) ∧
      (999.99 : ℚ) < Dec.toRat (Dec.mk 1000 0) :=
  ⟨by decide, by norm_num [Dec.toRat]⟩

/-- Claim C1, amended: `_parse_price` strips currency symbols and
whitespace, rewrites a bare fractional part with an explicit zero integer
part, normalizes a comma decimal separator to a point and takes the
absolute value of the parsed number; it maps "€1,79"→1.79, "-.90"→0.90,
",95"→0.95, "-,85"→0.85, "€-1,50"→1.50 and ""→NotAPrice, but it applies
no plausible-range check: "1000" parses to 1000 rather than NotAPrice. -/
theorem parsePrice_C1_amended :
    (parsePrice "€1,79" = some (Dec.mk 179 2) ∧
        Dec.toRat (Dec.mk 179 2) = 1.79 ∧
      parsePrice "-.90" = some (Dec.mk 90 2) ∧
        Dec.toRat (Dec.mk 90 2) = 0.90 ∧
      parsePrice ",95" = some (Dec.mk 95 2) ∧
        Dec.toRat (Dec.mk 95 2) = 0.95 ∧
      parsePrice "-,85" = some (Dec.mk 85 2) ∧
        Dec.toRat (Dec.mk 85 2) = 0.85 ∧
      parsePrice "€-1,50" = some (Dec.mk 150 2) ∧
        Dec.toRat (Dec.mk 150 2) = 1.50 ∧
      parsePrice "" = none ∧
      parsePrice "1000" = some (Dec.mk 1000 0) ∧
        Dec.toRat (Dec.mk 1000 0) = 1000) ∧
    (∀ s d, parsePrice s = some d → 0 ≤ d.num) ∧
    (∀ s, s ≠ "" → parsePrice (String.mk ('€' :: s.toList)) = parsePrice s) := by
  refine ⟨⟨?_, ?_, ?_, ?_, ?_, ?_, ?_, ?_, ?_, ?_, ?_, ?_, ?_⟩,
    parsePrice_nonneg, parsePrice_euro⟩
  · decide
  · norm_num [Dec.toRat]
  · decide
  · norm_num [Dec.toRat]
  · decide
  · norm_num [Dec.toRat]
  · decide
  · norm_num [Dec.toRat]
  · decide
  · norm_num [Dec.toRat]
  · decide
  · decide
  · norm_num [Dec.toRat]

/-- Witness for the hypotheses of `parsePrice_C1_amended`: instantiating
the quantified parts at concrete inputs. -/
theorem parsePrice_C1_amended_witness :
    0 ≤ (Dec.mk 499 2).num ∧
      parsePrice (String.mk ('€' :: "4,99".toList)) = parsePrice "4,99" :=
  ⟨parsePrice_C1_amended.2.1 "4,99 €" (Dec.mk 499 2) (by decide),
   parsePrice_C1_amended.2.2 "4,99" (by decide)⟩

/-! ## Tracker lemmas -/

/-- A dict assignment is found by a subsequent lookup of the same key. -/
lemma lookupStr_dictInsertStr_self (l : List (String × ℤ)) (k : String)
    (v : ℤ) : lookupStr (dictInsertStr l k v) k = some v := by
  induction l with
  | nil => simp [dictInsertStr, lookupStr]
  | cons kv rest ih =>
    by_cases hk : kv.1 = k
    · simp [dictInsertStr, lookupStr, hk]
    · simp [dictInsertStr, lookupStr, hk, ih]

/-- A key absent from a ℕ-keyed dict is not found. -/
lemma lookupNat_eq_none_of_not_mem (l : List (ℕ × CrawlProgress)) (k : ℕ)
    (h : k ∉ l.map Prod.fst) : lookupNat l k = none := by
  induction l with
  | nil => rfl
  | cons kv rest ih =>
    simp only [List.map_cons, List.mem_cons, not_or] at h
    have hne : kv.1 ≠ k := fun he => h.1 he.symm
    simp only [lookupNat, if_neg hne]
    exact ih h.2

/-- Deleting a key from a duplicate-free dict makes its lookup fail. -/
lemma lookupNat_dictRemoveNat_self (l : List (ℕ × CrawlProgress)) (k : ℕ)
    (h : (l.map Prod.fst).Nodup) : lookupNat (dictRemoveNat l k) k = none := by
  induction l with
  | nil => rfl
  | cons kv rest ih =>
    simp only [List.map_cons, List.nodup_cons] at h
    by_cases hk : kv.1 = k
    · simp only [dictRemoveNat, if_pos hk]
      exact lookupNat_eq_none_of_not_mem rest k (hk ▸ h.1)
    · simp only [dictRemoveNat, if_neg hk, lookupNat, if_neg hk]
      exact ih h.2

/-- The fields of the finalized job record: the id is preserved, the status
is the given terminal status, `completed_at` is the completion instant and
the percentage is forced to 100. -/
lemma finalizeCrawl_fields (crawl : CrawlProgress) (now : ℤ)
    (status : CrawlStatus) (cnt : Option ℕ) (err : Option String) :
    (finalizeCrawl crawl now status cnt err).crawlId = crawl.crawlId ∧
    (finalizeCrawl crawl now status cnt err).status = status ∧
    (finalizeCrawl crawl now status cnt err).completedAt = some now ∧
    (finalizeCrawl crawl now status cnt err).progressPercentage = 100 := by
  unfold finalizeCrawl
  rcases cnt with _ | n <;> rcases err with _ | e <;> dsimp <;>
    first
      | exact ⟨rfl, rfl, rfl, rfl⟩
      | (split <;> exact ⟨rfl, rfl, rfl, rfl⟩)

/-! ## Claim C2 — at most one active job per source -/

/-- Claim C2, counterexample: an immediate second `start_crawl` for the
same store is rejected by the rate limiter, not with `AlreadyRunning`; and
once the rate-limit window has elapsed, a second `start_crawl` while the
first job is still `PENDING` succeeds, leaving two active jobs for the same
store. -/
theorem tracker_C2_counterexample :
    startCrawl {} 0 1 "Lidl" .manual "10115" "admin" none =
      .ok (1,
        { activeCrawls := [(1,
            { crawlId := 1, storeName := "Lidl", status := .pending,
              crawlType := .manual, startedAt := 0, postalCode := "10115",
              triggeredBy := "admin" })],
          completedCrawls := [],
          lastCrawlAttempts := [("Lidl", 0)] }) ∧
    startCrawl
        { activeCrawls := [(1,
            { crawlId := 1, storeName := "Lidl", status := .pending,
              crawlType := .manual, startedAt := 0, postalCode := "10115",
              triggeredBy := "admin" })],
          completedCrawls := [],
          lastCrawlAttempts := [("Lidl", 0)] }
        0 2 "Lidl" .manual "10115" "admin" none =
      .error (.rateLimited 300) ∧
    startCrawl
        { activeCrawls := [(1,
            { crawlId := 1, storeName := "Lidl", status := .pending,
              crawlType := .manual, startedAt := 0, postalCode := "10115",
              triggeredBy := "admin" })],
          completedCrawls := [],
          lastCrawlAttempts := [("Lidl", 0)] }
        300 2 "Lidl" .manual "10115" "admin" none =
      .ok (2,
        { activeCrawls := [(1,
            { crawlId := 1, storeName := "Lidl", status := .pending,
              crawlType := .manual, startedAt := 0, postalCode := "10115",
              triggeredBy := "admin" }),
          (2,
            { crawlId := 2, storeName := "Lidl", status := .pending,
              crawlType := .manual, startedAt := 300, postalCode := "10115",
              triggeredBy := "admin" })],
          completedCrawls := [],
          lastCrawlAttempts := [("Lidl", 300)] }) ∧
    (([(1,
        ({ crawlId := 1, storeName := "Lidl", status := .pending,
           crawlType := .manual, startedAt := 0, postalCode := "10115",
           triggeredBy := "admin" } : CrawlProgress)),
       (2,
        ({ crawlId := 2, storeName := "Lidl", status := .pending,
           crawlType := .manual, startedAt := 300, postalCode := "10115",
           triggeredBy := "admin" } : CrawlProgress))].filter
        (fun kv => kv.2.storeName == "Lidl")).length = 2) := by
  refine ⟨by decide, by decide, by decide, by decide⟩

/-- Claim C2, amended: `start_crawl` rejects with `AlreadyRunning` exactly
when the store is not rate limited and some active job of the same store is
in `CRAWLING` or `PROCESSING`; it succeeds exactly when the store is not
rate limited and no active job of the store is in one of those two states.
A job still in `PENDING` or `INITIALIZING` therefore does not block a
second start once the rate-limit window has elapsed, so two active jobs per
store are reachable. -/
theorem tracker_C2_amended (st : TrackerState) (now : ℤ) (newId : ℕ)
    (storeName : String) (ct : CrawlType) (pc tb : String) (sid : Option ℕ) :
    (startCrawl st now newId storeName ct pc tb sid = .error .alreadyRunning ↔
      isRateLimited st now storeName = false ∧
        ∃ kv ∈ st.activeCrawls, kv.2.storeName = storeName ∧
          (kv.2.status = .crawling ∨ kv.2.status = .processing)) ∧
    ((∃ p, startCrawl st now newId storeName ct pc tb sid = .ok p) ↔
      isRateLimited st now storeName = false ∧
        ∀ kv ∈ st.activeCrawls, kv.2.storeName = storeName →
          ¬(kv.2.status = .crawling ∨ kv.2.status = .processing)) := by
  unfold startCrawl
  by_cases hrl : isRateLimited st now storeName = true
  · rw [if_pos hrl]
    rcases hlk : lookupStr st.lastCrawlAttempts storeName with _ | t <;>
      simp only [hlk] <;> simp [hrl]
  · have hrl' : isRateLimited st now storeName = false := by
      simpa using hrl
    rw [if_neg hrl]
    by_cases hany : (st.activeCrawls.any (fun kv =>
        kv.2.storeName == storeName &&
          (kv.2.status == CrawlStatus.crawling ||
            kv.2.status == CrawlStatus.processing))) = true
    · rw [if_pos hany]
      simp only [List.any_eq_true, Bool.and_eq_true, beq_iff_eq,
        Bool.or_eq_true] at hany
      obtain ⟨kv, hmem, hname, hstat⟩ := hany
      constructor
      · constructor
        · intro _
          exact ⟨hrl', kv, hmem, hname, hstat⟩
        · intro _
          rfl
      · constructor
        · rintro ⟨p, hp⟩
          exact Except.noConfusion hp
        · rintro ⟨-, hall⟩
          exact absurd hstat (hall kv hmem hname)
    · rw [if_neg hany]
      simp only [List.any_eq_true, Bool.and_eq_true, beq_iff_eq,
        Bool.or_eq_true, not_exists] at hany
      push_neg at hany
      constructor
      · constructor
        · intro h
          exact Except.noConfusion h
        · rintro ⟨-, kv, hmem, hname, hstat⟩
          exact (not_or.mpr (hany kv hmem hname) hstat).elim
      · constructor
        · intro _
          exact ⟨hrl', fun kv hmem hname => not_or.mpr (hany kv hmem hname)⟩
        · intro _
          exact ⟨_, rfl⟩

/-! ## Claim C6 — rate limiting -/

/-- Claim C6: a second `start_crawl` within `min_interval` of the recorded
last attempt is rejected as rate limited, reporting exactly
`last_attempt + min_interval` as the next allowed time; and every
successful `start_crawl` records `now` as the store's last attempt
immediately. -/
theorem tracker_C6 :
    (∀ (st : TrackerState) (now : ℤ) (newId : ℕ) (storeName : String)
        (ct : CrawlType) (pc tb : String) (sid : Option ℕ) (t : ℤ),
      lookupStr st.lastCrawlAttempts storeName = some t →
      now - t < minCrawlInterval →
      startCrawl st now newId storeName ct pc tb sid =
        .error (.rateLimited (t + minCrawlInterval))) ∧
    (∀ (st : TrackerState) (now : ℤ) (newId : ℕ) (storeName : String)
        (ct : CrawlType) (pc tb : String) (sid : Option ℕ)
        (p : ℕ × TrackerState),
      startCrawl st now newId storeName ct pc tb sid = .ok p →
      lookupStr p.2.lastCrawlAttempts storeName = some now) := by
  constructor
  · intro st now newId storeName ct pc tb sid t hlk hlt
    have hrl : isRateLimited st now storeName = true := by
      unfold isRateLimited
      rw [hlk]
      simpa using hlt
    unfold startCrawl
    rw [if_pos hrl]
    simp only [hlk]
  · intro st now newId storeName ct pc tb sid p h
    unfold startCrawl at h
    split at h
    · split at h <;> exact Except.noConfusion h
    · split at h
      · exact Except.noConfusion h
      · simp only [Except.ok.injEq] at h
        subst h
        exact lookupStr_dictInsertStr_self st.lastCrawlAttempts storeName now

/-- Witness for `tracker_C6` at a concrete state: the last attempt for
"Lidl" was at time 0, the second call at time 100 is rejected with next
allowed time 300; and the recorded window after a successful start at time
0 is 0. -/
theorem tracker_C6_witness :
    startCrawl
        { activeCrawls := [], completedCrawls := [],
          lastCrawlAttempts := [("Lidl", 0)] }
        100 2 "Lidl" .manual "10115" "admin" none =
      .error (.rateLimited 300) ∧
    lookupStr
        (({ activeCrawls := [(1,
              { crawlId := 1, storeName := "Lidl", status := .pending,
                crawlType := .manual, startedAt := 0, postalCode := "10115",
                triggeredBy := "admin" })],
            completedCrawls := [],
            lastCrawlAttempts := [("Lidl", 0)] } :
          TrackerState)).lastCrawlAttempts "Lidl" = some 0 :=
  ⟨tracker_C6.1 _ 100 2 "Lidl" .manual "10115" "admin" none 0 (by decide)
      (by decide),
   tracker_C6.2 {} 0 1 "Lidl" .manual "10115" "admin" none
      (1,
        { activeCrawls := [(1,
            { crawlId := 1, storeName := "Lidl", status := .pending,
              crawlType := .manual, startedAt := 0, postalCode := "10115",
              triggeredBy := "admin" })],
          completedCrawls := [],
          lastCrawlAttempts := [("Lidl", 0)] })
      (by decide)⟩

/-! ## Claim C7 — completion idempotence and bounded history -/

/-- Claim C7: completing an active job succeeds, removes it from the
active set, appends it to the history with `completed_at` set and the
percentage forced to 100, truncates the history to its last 50 entries
(dropping the oldest beyond that capacity), and a second completion of the
same id is a no-op returning failure that leaves the state (hence the
history) unchanged. -/
theorem tracker_C7 (st : TrackerState) (now now2 : ℤ) (crawlId : ℕ)
    (status status2 : CrawlStatus) (cnt cnt2 : Option ℕ)
    (err err2 : Option String) (crawl : CrawlProgress)
    (hlk : lookupNat st.activeCrawls crawlId = some crawl)
    (hnd : (st.activeCrawls.map Prod.fst).Nodup) :
    (completeCrawl st now crawlId status cnt err).1 = true ∧
    lookupNat (completeCrawl st now crawlId status cnt err).2.activeCrawls
      crawlId = none ∧
    (∃ c, c.crawlId = crawl.crawlId ∧ c.status = status ∧
      c.completedAt = some now ∧ c.progressPercentage = 100 ∧
      (completeCrawl st now crawlId status cnt err).2.completedCrawls =
        (st.completedCrawls ++ [c]).drop
          (st.completedCrawls.length + 1 - maxCompletedHistory)) ∧
    (st.completedCrawls.length ≤ maxCompletedHistory →
      (completeCrawl st now crawlId status cnt err).2.completedCrawls.length ≤
        maxCompletedHistory) ∧
    completeCrawl (completeCrawl st now crawlId status cnt err).2 now2 crawlId
        status2 cnt2 err2 =
      (false, (completeCrawl st now crawlId status cnt err).2) := by
  have hdrop : ∀ (l : List CrawlProgress),
      (if maxCompletedHistory < l.length then
        l.drop (l.length - maxCompletedHistory) else l) =
      l.drop (l.length - maxCompletedHistory) := by
    intro l
    split
    · rfl
    · rw [Nat.sub_eq_zero_of_le (by omega), List.drop_zero]
  have hremove : lookupNat (dictRemoveNat st.activeCrawls crawlId) crawlId =
      none := lookupNat_dictRemoveNat_self st.activeCrawls crawlId hnd
  have hfields := finalizeCrawl_fields crawl now status cnt err
  unfold completeCrawl
  simp only [hlk]
  refine ⟨trivial, hremove, ⟨finalizeCrawl crawl now status cnt err,
    hfields.1, hfields.2.1, hfields.2.2.1, hfields.2.2.2, ?_⟩, ?_, ?_⟩
  · rw [hdrop]
    simp
  · intro hle
    rw [hdrop]
    simp only [List.length_drop, List.length_append, List.length_singleton]
    omega
  · simp only [hremove]

/-- Witness for `tracker_C7` at a concrete one-job state. -/
theorem tracker_C7_witness :
    (completeCrawl
        { activeCrawls := [(1,
            { crawlId := 1, storeName := "Lidl", status := .crawling,
              crawlType := .manual, startedAt := 0, postalCode := "10115",
              triggeredBy := "admin" })],
          completedCrawls := [],
          lastCrawlAttempts := [("Lidl", 0)] }
        10 1 .completed (some 7) none).1 = true :=
  (tracker_C7
    { activeCrawls := [(1,
        { crawlId := 1, storeName := "Lidl", status := .crawling,
          crawlType := .manual, startedAt := 0, postalCode := "10115",
          triggeredBy := "admin" })],
      completedCrawls := [],
      lastCrawlAttempts := [("Lidl", 0)] }
    10 20 1 .completed .failed (some 7) none none none
    { crawlId := 1, storeName := "Lidl", status := .crawling,
      crawlType := .manual, startedAt := 0, postalCode := "10115",
      triggeredBy := "admin" }
    (by decide) (by decide)).1

/-! ## Claim C3 — resolve-or-create source provisioning -/

/-- Claim C3, code bug: on the path where no Source row exists, the
creation attempt always fails — the call passes an `enabled` keyword that
`StoreRepository.create` does not accept, raising `TypeError` before any
storage work.  That error matches none of the uniqueness indicators, so it
propagates even when a concurrent row would be found on re-read, and no
Source row is ever inserted by the coordinator.  The surrounding control
flow (lookup first; uniqueness-matching errors trigger one re-read whose
empty result re-raises; other errors propagate) behaves as the claim
describes, shown on representative storage errors. -/
theorem ensureStore_C3_bug :
    (∀ retryLookup : Option StoreRow,
      ensureStoreExists "Lidl" none (.error storeCreateCallError) retryLookup =
        .error storeCreateCallError) ∧
    isUniqueConstraintError storeCreateCallError = false ∧
    ensureStoreExists "Lidl" (some { id := 1, name := "Lidl" })
        (.error storeCreateCallError) none = .ok { id := 1, name := "Lidl" } ∧
    ensureStoreExists "Lidl" none
        (.error "duplicate key value violates unique constraint stores_name_key")
        (some { id := 2, name := "Lidl" }) = .ok { id := 2, name := "Lidl" } ∧
    ensureStoreExists "Lidl" none
        (.error "duplicate key value violates unique constraint stores_name_key")
        none =
      .error "duplicate key value violates unique constraint stores_name_key" ∧
    ensureStoreExists "Lidl" none (.error "connection refused")
        (some { id := 2, name := "Lidl" }) = .error "connection refused" := by
  refine ⟨?_, by decide, by decide, by decide, by decide, by decide⟩
  intro retryLookup
  unfold ensureStoreExists
  rw [if_pos (show "Lidl" ∈ crawlerNames from by decide)]
  show (if isUniqueConstraintError storeCreateCallError = true then
      (match retryLookup with
       | some s => Except.ok s
       | none => Except.error storeCreateCallError)
    else Except.error storeCreateCallError) = Except.error storeCreateCallError
  rw [if_neg (by decide)]

/-! ## Claim C4 — soft-delete aging -/

/-- Claim C4, counterexample: a stale catalog item of the crawled source
(older than the freshness window, not yet deleted) is NOT soft-deleted when
the harvest produced no records — the soft delete sits inside the
`if unique_products:` guard, so an empty deduplicated batch skips it
entirely.  The claim asserts it runs regardless of how many records the
harvest produced. -/
theorem aging_C4_counterexample :
    crawlStoreAging 1 []
        [{ id := 1, storeId := 1, createdAt := 0, deletedAt := none }]
        10000000 =
      [{ id := 1, storeId := 1, createdAt := 0, deletedAt := none }] ∧
    (0 : ℤ) < 10000000 - freshnessWindow := by
  exact ⟨by decide, by decide⟩

/-- Claim C4, amended: when the deduplicated batch is empty the processing
phase leaves the catalog untouched; when it is non-empty, every not-yet-
deleted item of the source older than the 7-day window is soft-deleted
with timestamp `now`, and every other item is unchanged. -/
theorem aging_C4_amended (sid : ℕ) (products : List ProductRec)
    (db : List CatalogItem) (now : ℤ) :
    (deduplicateProducts products = [] →
      crawlStoreAging sid products db now = db) ∧
    (deduplicateProducts products ≠ [] →
      (∀ it ∈ db, it.storeId = sid → it.createdAt < now - freshnessWindow →
        it.deletedAt = none →
        { it with deletedAt := some now } ∈
          crawlStoreAging sid products db now) ∧
      (∀ it ∈ db,
        ¬(it.storeId = sid ∧ it.createdAt < now - freshnessWindow ∧
            it.deletedAt = none) →
        it ∈ crawlStoreAging sid products db now)) := by
  constructor
  · intro h
    unfold crawlStoreAging
    rw [h]
    rfl
  · intro h
    have hne : (deduplicateProducts products).isEmpty = false := by
      rcases hd : deduplicateProducts products with _ | ⟨p, ps⟩
      · exact absurd hd h
      · rfl
    constructor
    · intro it hmem h1 h2 h3
      unfold crawlStoreAging
      simp only [hne, Bool.false_eq_true, if_false, softDeleteOldProducts]
      exact List.mem_map.mpr ⟨it, hmem, by rw [if_pos ⟨h1, h2, h3⟩]⟩
    · intro it hmem hcond
      unfold crawlStoreAging
      simp only [hne, Bool.false_eq_true, if_false, softDeleteOldProducts]
      exact List.mem_map.mpr ⟨it, hmem, by rw [if_neg hcond]⟩

/-- Witness for `aging_C4_amended` at a concrete batch and catalog. -/
theorem aging_C4_amended_witness :
    ({ id := 1, storeId := 1, createdAt := 0, deletedAt := some 10000000 } :
        CatalogItem) ∈
      crawlStoreAging 1 [{ name := "Milch", store := "Lidl" }]
        [{ id := 1, storeId := 1, createdAt := 0, deletedAt := none }]
        10000000 :=
  ((aging_C4_amended 1 [{ name := "Milch", store := "Lidl" }]
      [{ id := 1, storeId := 1, createdAt := 0, deletedAt := none }]
      10000000).2 (by decide)).1
    { id := 1, storeId := 1, createdAt := 0, deletedAt := none }
    (by decide) (by decide) (by decide) (by decide)

/-! ## Claim C5 — bulk persistence discards the availability fields -/

/-- Claim C5: the converter produces `availability_text` and
`offer_valid_until` values, but `bulk_create` reads only the other keys of
the converted dict, so every persisted row carries exactly the listed
fields plus the crawl-session tag, with the two availability columns left
unset; shown field-by-field for every input and on a concrete record whose
availability values are discarded. -/
theorem bulkCreate_C5 :
    (∀ (ec eb : CrawledProduct → Option String) (p : CrawledProduct)
        (storeId : ℕ) (pc : String),
      (convertProductToDbFormat ec eb p storeId pc).availabilityText =
          optTrunc 255 p.availabilityText ∧
        (convertProductToDbFormat ec eb p storeId pc).offerValidUntil =
          p.offerValidUntil) ∧
    (∀ (rec : ConvertedRecord) (sess : ℕ),
      (bulkCreateRow sess rec).name = rec.name ∧
      (bulkCreateRow sess rec).description = rec.description ∧
      (bulkCreateRow sess rec).brand = rec.brand ∧
      (bulkCreateRow sess rec).category = rec.category ∧
      (bulkCreateRow sess rec).storeId = rec.storeId ∧
      (bulkCreateRow sess rec).price = rec.price ∧
      (bulkCreateRow sess rec).unit = rec.unit ∧
      (bulkCreateRow sess rec).availability = rec.availability ∧
      (bulkCreateRow sess rec).imageUrl = rec.imageUrl ∧
      (bulkCreateRow sess rec).productUrl = rec.productUrl ∧
      (bulkCreateRow sess rec).postalCode = some rec.postalCode ∧
      (bulkCreateRow sess rec).crawlSessionId = some sess ∧
      (bulkCreateRow sess rec).availabilityTextCol = none ∧
      (bulkCreateRow sess rec).offerValidUntilCol = none) ∧
    (∀ recs sess, (bulkCreate recs sess).1 = recs.map (bulkCreateRow sess) ∧
      (bulkCreate recs sess).2 = recs.length) ∧
    ((convertProductToDbFormat (fun _ => none) (fun _ => none)
        { name := "Milch",
          availabilityText := some "nur in der Filiale 07.07. - 12.07.",
          offerValidUntil := some "2024-07-12" } 3 "10115").availabilityText =
      some "nur in der Filiale 07.07. - 12.07." ∧
    (bulkCreateRow 5 (convertProductToDbFormat (fun _ => none) (fun _ => none)
        { name := "Milch",
          availabilityText := some "nur in der Filiale 07.07. - 12.07.",
          offerValidUntil := some "2024-07-12" } 3 "10115")).availabilityTextCol =
      none ∧
    (bulkCreateRow 5 (convertProductToDbFormat (fun _ => none) (fun _ => none)
        { name := "Milch",
          availabilityText := some "nur in der Filiale 07.07. - 12.07.",
          offerValidUntil := some "2024-07-12" } 3 "10115")).offerValidUntilCol =
      none) := by
  refine ⟨fun ec eb p storeId pc => ⟨rfl, rfl⟩,
    fun rec sess => ⟨rfl, rfl, rfl, rfl, rfl, rfl, rfl, rfl, rfl, rfl, rfl,
      rfl, rfl, rfl⟩,
    fun recs sess => ⟨rfl, rfl⟩, by decide, rfl, rfl⟩

/-! ## Date-order lemmas -/

/-- The Boolean date comparison as a proposition. -/
lemma dateLtB_iff (a b : PyDate) : dateLtB a b = true ↔
    (a.year < b.year ∨ (a.year = b.year ∧
      (a.month < b.month ∨ (a.month = b.month ∧ a.day < b.day)))) := by
  simp [dateLtB]

/-- The Boolean non-strict date comparison as a proposition. -/
lemma dateLeB_iff (a b : PyDate) : dateLeB a b = true ↔
    ¬(b.year < a.year ∨ (b.year = a.year ∧
      (b.month < a.month ∨ (b.month = a.month ∧ b.day < a.day)))) := by
  constructor
  · intro h hcontra
    rw [dateLeB, (dateLtB_iff b a).mpr hcontra] at h
    exact Bool.noConfusion h
  · intro h
    rw [dateLeB]
    cases hlt : dateLtB b a
    · rfl
    · exact absurd ((dateLtB_iff b a).mp hlt) h

/-- A strictly smaller date is non-strictly smaller. -/
lemma dateLeB_of_ltB (a b : PyDate) (h : dateLtB a b = true) :
    dateLeB a b = true := by
  rw [dateLtB_iff] at h
  rw [dateLeB_iff]
  omega

/-- Reflexivity of the non-strict comparison. -/
lemma dateLeB_refl (a : PyDate) : dateLeB a a = true := by
  rw [dateLeB_iff]
  omega

/-- Failure of the strict comparison gives the reverse non-strict one. -/
lemma dateLeB_of_not_ltB (a b : PyDate) (h : dateLtB a b = false) :
    dateLeB b a = true := by
  simp [dateLeB, h]

/-- Transitivity of the non-strict comparison. -/
lemma dateLeB_trans (a b c : PyDate) (h1 : dateLeB a b = true)
    (h2 : dateLeB b c = true) : dateLeB a c = true := by
  rw [dateLeB_iff] at h1 h2 ⊢
  omega

/-- The kept maximum is an element of the scanned list. -/
lemma pyMaxDate_mem (d : PyDate) (ds : List PyDate) :
    pyMaxDate d ds ∈ d :: ds := by
  induction ds generalizing d with
  | nil => simp [pyMaxDate]
  | cons x ds ih =>
    show pyMaxDate (if dateLtB d x then x else d) ds ∈ d :: x :: ds
    rcases List.mem_cons.mp (ih (if dateLtB d x then x else d)) with h | h
    · by_cases hx : dateLtB d x = true
      · rw [h, if_pos hx]
        simp
      · rw [h, if_neg hx]
        simp
    · simp [h]

/-- The kept maximum bounds every element of the scanned list. -/
lemma pyMaxDate_le (d : PyDate) (ds : List PyDate) :
    ∀ x ∈ d :: ds, dateLeB x (pyMaxDate d ds) = true := by
  induction ds generalizing d with
  | nil =>
    intro x hx
    rw [List.mem_singleton] at hx
    rw [hx]
    exact dateLeB_refl _
  | cons y ds ih =>
    intro x hx
    show dateLeB x (pyMaxDate (if dateLtB d y then y else d) ds) = true
    have hacc : ∀ z ∈ (if dateLtB d y then y else d) :: ds,
        dateLeB z (pyMaxDate (if dateLtB d y then y else d) ds) = true :=
      ih (if dateLtB d y then y else d)
    have hhead : dateLeB (if dateLtB d y then y else d)
        (pyMaxDate (if dateLtB d y then y else d) ds) = true :=
      hacc _ (List.mem_cons_self _ _)
    rcases List.mem_cons.mp hx with h | h
    · subst h
      by_cases hd : dateLtB x y = true
      · rw [if_pos hd] at hhead ⊢
        exact dateLeB_trans x y _ (dateLeB_of_ltB x y hd) hhead
      · rw [if_neg hd] at hhead ⊢
        exact hhead
    · rcases List.mem_cons.mp h with h | h
      · subst h
        by_cases hd : dateLtB d x = true
        · rw [if_pos hd] at hhead ⊢
          exact hhead
        · rw [if_neg hd] at hhead ⊢
          exact dateLeB_trans x d _
            (dateLeB_of_not_ltB d x (by simpa using hd)) hhead
      · exact hacc x (List.mem_cons_of_mem _ h)

/-- Every month has at most 31 days. -/
lemma daysInMonth_le (y m : ℕ) : daysInMonth y m ≤ 31 := by
  unfold daysInMonth
  split
  · split <;> omega
  · split <;> omega

/-! ## Claim C8 — availability parsing -/

/-- Claim C8: empty text parses as available with no display text and no
date; any negative keyword occurring (case-insensitively) in the stripped
text forces `available = false` regardless of dates; the returned
`valid_until` is the latest of all dates found, and a `valid_until`
strictly before today independently forces `available = false`. -/
theorem parseAvailability_C8 :
    (∀ today : PyDate,
      parseAvailabilityAndDate today "" = (true, none, none)) ∧
    (∀ (today : PyDate) (text ind : String), ind ∈ unavailableIndicators →
      containsSub ind.toList (pyLower (pyStrip text.toList)) = true →
      (parseAvailabilityAndDate today text).1 = false) ∧
    (∀ (today : PyDate) (text : String) (d : PyDate),
      (parseAvailabilityAndDate today text).2.2 = some d →
        d ∈ datesFound today (pyStrip text.toList) ∧
        ∀ d2 ∈ datesFound today (pyStrip text.toList),
          dateLeB d2 d = true) ∧
    (∀ (today : PyDate) (text : String) (d : PyDate),
      (parseAvailabilityAndDate today text).2.2 = some d →
      dateLtB d today = true →
      (parseAvailabilityAndDate today text).1 = false) := by
  refine ⟨fun today => rfl, ?_, ?_, ?_⟩
  · intro today text ind hind hsub
    by_cases htext : text = ""
    · subst htext
      have : containsSub ind.toList (pyLower (pyStrip "".toList)) = false := by
        fin_cases hind <;> decide
      rw [this] at hsub
      exact Bool.noConfusion hsub
    · have hun : unavailableIndicators.any (fun i =>
          containsSub i.toList (pyLower (pyStrip text.toList))) = true :=
        List.any_eq_true.mpr ⟨ind, hind, hsub⟩
      unfold parseAvailabilityAndDate
      rw [if_neg htext]
      simp only [hun, Bool.not_true]
      rcases hd : datesFound today (pyStrip text.toList) with _ | ⟨d0, ds⟩
      · rfl
      · by_cases hlt : dateLtB (pyMaxDate d0 ds) today = true
        · simp [hlt]
        · simp [hlt]
  · intro today text d hval
    unfold parseAvailabilityAndDate at hval
    split at hval
    · exact Option.noConfusion hval
    · rcases hd : datesFound today (pyStrip text.toList) with _ | ⟨d0, ds⟩ <;>
        simp only [hd] at hval
      · exact Option.noConfusion hval
      · simp only [Option.some.injEq] at hval
        subst hval
        exact ⟨pyMaxDate_mem d0 ds, pyMaxDate_le d0 ds⟩
  · intro today text d hval hlt
    unfold parseAvailabilityAndDate at hval ⊢
    split at hval
    · exact Option.noConfusion hval
    · rename_i htext
      rw [if_neg htext]
      rcases hd : datesFound today (pyStrip text.toList) with _ | ⟨d0, ds⟩ <;>
        simp only [hd] at hval ⊢
      · exact Option.noConfusion hval
      · simp only [Option.some.injEq] at hval
        subst hval
        rw [if_pos hlt]

/-- Witness for `parseAvailability_C8` at concrete inputs: the keyword
"ausverkauft" forces unavailability, and an expired date forces
unavailability. -/
theorem parseAvailability_C8_witness :
    (parseAvailabilityAndDate ⟨2024, 6, 1⟩ "ausverkauft").1 = false ∧
    (parseAvailabilityAndDate ⟨2024, 12, 30⟩ "Gültig bis 23.12.").1 =
      false :=
  ⟨parseAvailability_C8.2.1 ⟨2024, 6, 1⟩ "ausverkauft" "ausverkauft"
      (by decide) (by decide),
   parseAvailability_C8.2.2.2 ⟨2024, 12, 30⟩ "Gültig bis 23.12."
      ⟨2024, 12, 23⟩ (by decide) (by decide)⟩

/-! ## Claim C9 — year inference for year-less dates -/

/-- Claim C9: a `DD.MM.` date with the year omitted is resolved against the
injected clock to the current year, unless that choice would put it more
than 30 days in the past, in which case the next year is taken; in
particular "gültig bis 15.12." parsed on 2024-01-10 yields 2024-12-15 with
`available = true`, and the same text parsed on 2024-12-20 yields the past
date 2024-12-15 with `available = false`. -/
theorem parseAvailability_C9 :
    (∀ (today : PyDate) (dayv monthv : ℕ),
      isValidDate today.year monthv dayv = true →
      (rataDie today : ℤ) - (rataDie ⟨today.year, monthv, dayv⟩ : ℤ) ≤ 30 →
      procDM today (dayv, monthv) = some ⟨today.year, monthv, dayv⟩) ∧
    (∀ (today : PyDate) (dayv monthv : ℕ),
      isValidDate today.year monthv dayv = true →
      30 < (rataDie today : ℤ) - (rataDie ⟨today.year, monthv, dayv⟩ : ℤ) →
      isValidDate (today.year + 1) monthv dayv = true →
      procDM today (dayv, monthv) = some ⟨today.year + 1, monthv, dayv⟩) ∧
    parseAvailabilityAndDate ⟨2024, 1, 10⟩ "gültig bis 15.12." =
      (true, some "gültig bis 15.12.", some ⟨2024, 12, 15⟩) ∧
    parseAvailabilityAndDate ⟨2024, 12, 20⟩ "gültig bis 15.12." =
      (false, some "gültig bis 15.12.", some ⟨2024, 12, 15⟩) := by
  refine ⟨?_, ?_, by decide, by decide⟩
  · intro today dayv monthv hv h30
    have hv' := hv
    simp only [isValidDate, Bool.and_eq_true, decide_eq_true_eq] at hv'
    obtain ⟨⟨⟨⟨⟨-, -⟩, h3⟩, h4⟩, h5⟩, h6⟩ := hv'
    unfold procDM
    dsimp only
    rw [if_pos hv, if_neg (show ¬(30 < (rataDie today : ℤ) -
        (rataDie ⟨today.year, monthv, dayv⟩ : ℤ)) from by omega),
      if_pos ⟨h3, h4, h5, le_trans h6 (daysInMonth_le _ _)⟩, if_pos hv]
  · intro today dayv monthv hv h30 hv2
    have hv' := hv
    simp only [isValidDate, Bool.and_eq_true, decide_eq_true_eq] at hv'
    obtain ⟨⟨⟨⟨⟨-, -⟩, h3⟩, h4⟩, h5⟩, h6⟩ := hv'
    unfold procDM
    dsimp only
    rw [if_pos hv, if_pos h30,
      if_pos ⟨h3, h4, h5, le_trans h6 (daysInMonth_le _ _)⟩, if_pos hv2]

/-- Witness for `parseAvailability_C9`: the two year-inference branches at
concrete dates (15.12. seen from 2024-01-10 stays in 2024; 05.01. seen from
2024-12-20 rolls over to 2025). -/
theorem parseAvailability_C9_witness :
    procDM ⟨2024, 1, 10⟩ (15, 12) = some ⟨2024, 12, 15⟩ ∧
    procDM ⟨2024, 12, 20⟩ (5, 1) = some ⟨2025, 1, 5⟩ :=
  ⟨parseAvailability_C9.1 ⟨2024, 1, 10⟩ 15 12 (by decide) (by decide),
   parseAvailability_C9.2.1 ⟨2024, 12, 20⟩ 5 1 (by decide) (by decide)
     (by decide)⟩

/-! ## Deduplication lemmas -/

/-- A dict assignment on `seen_products` is found by a lookup of the same
key. -/
lemma lookupKey_replaceKey_self
    (l : List ((String × String × Option ℚ) × ProductRec))
    (k : String × String × Option ℚ) (v : ProductRec) :
    lookupKey (replaceKey l k v) k = some v := by
  induction l with
  | nil => simp [replaceKey, lookupKey]
  | cons kv rest ih =>
    by_cases hk : kv.1 = k
    · simp [replaceKey, lookupKey, hk]
    · simp [replaceKey, lookupKey, hk, ih]

/-- Folding one more record is one `dedupStep` on the accumulated state. -/
lemma dedup_foldl_append (ps : List ProductRec) (p : ProductRec) :
    (ps ++ [p]).foldl dedupStep {} = dedupStep (ps.foldl dedupStep {}) p := by
  rw [List.foldl_append]
  rfl

/-- A `dedupStep` on a fresh key records and appends the record. -/
lemma dedupStep_lookup_none (st : DedupState) (p : ProductRec)
    (h : lookupKey st.seen (dedupKey p) = none) :
    dedupStep st p = ⟨st.seen ++ [(dedupKey p, p)], st.uniq ++ [p]⟩ := by
  unfold dedupStep
  simp only [h]

/-- A `dedupStep` on a seen key replaces the kept record exactly when the
new one is richer. -/
lemma dedupStep_lookup_some (st : DedupState) (p existing : ProductRec)
    (h : lookupKey st.seen (dedupKey p) = some existing) :
    dedupStep st p =
      if richerThan p existing then
        ⟨replaceKey st.seen (dedupKey p) p,
          (st.uniq.filter (fun q => q ≠ existing)) ++ [p]⟩
      else st := by
  unfold dedupStep
  simp only [h]

/-! ## Claim C10 — deduplication keeps the first, richer record -/

/-- Claim C10: a record whose key is new is recorded and appended (the
first occurrence of a key is kept); a record whose key is already seen
replaces the kept record exactly when it is richer (it has a description or
an image URL the kept one lacks), otherwise the kept record stays; on the
claim's concrete scenario (two records identical in key, only the second
described), the described record survives alone. -/
theorem dedup_C10 :
    (∀ (ps : List ProductRec) (p : ProductRec),
      lookupKey (dedupSeen ps) (dedupKey p) = none →
      dedupSeen (ps ++ [p]) = dedupSeen ps ++ [(dedupKey p, p)] ∧
      deduplicateProducts (ps ++ [p]) = deduplicateProducts ps ++ [p]) ∧
    (∀ (ps : List ProductRec) (p existing : ProductRec),
      lookupKey (dedupSeen ps) (dedupKey p) = some existing →
      lookupKey (dedupSeen (ps ++ [p])) (dedupKey p) =
        some (if richerThan p existing then p else existing)) ∧
    deduplicateProducts
        [{ name := "Milch", store := "Lidl", price := some 2 },
         { name := "Milch", store := "Lidl", price := some 2,
           description := some "frische Vollmilch" }] =
      [{ name := "Milch", store := "Lidl", price := some 2,
         description := some "frische Vollmilch" }] := by
  refine ⟨?_, ?_, by decide⟩
  · intro ps p hlk
    constructor
    · show ((ps ++ [p]).foldl dedupStep {}).seen = _
      rw [dedup_foldl_append, dedupStep_lookup_none _ p hlk]
      rfl
    · show ((ps ++ [p]).foldl dedupStep {}).uniq = _
      rw [dedup_foldl_append, dedupStep_lookup_none _ p hlk]
      rfl
  · intro ps p existing hlk
    show lookupKey ((ps ++ [p]).foldl dedupStep {}).seen (dedupKey p) = _
    rw [dedup_foldl_append, dedupStep_lookup_some _ p existing hlk]
    by_cases hrich : richerThan p existing = true
    · rw [if_pos hrich, if_pos hrich]
      exact lookupKey_replaceKey_self _ _ _
    · rw [if_neg hrich, if_neg hrich]
      exact hlk

/-- Witness for `dedup_C10` at the concrete two-record scenario. -/
theorem dedup_C10_witness :
    lookupKey
        (dedupSeen
          [{ name := "Milch", store := "Lidl", price := some 2 },
           { name := "Milch", store := "Lidl", price := some 2,
             description := some "frische Vollmilch" }])
        (dedupKey
          { name := "Milch", store := "Lidl", price := some 2,
            description := some "frische Vollmilch" }) =
      some
        (if richerThan
            { name := "Milch", store := "Lidl", price := some 2,
              description := some "frische Vollmilch" }
            { name := "Milch", store := "Lidl", price := some 2 } then
          { name := "Milch", store := "Lidl", price := some 2,
            description := some "frische Vollmilch" }
        else { name := "Milch", store := "Lidl", price := some 2 }) :=
  dedup_C10.2.1 [{ name := "Milch", store := "Lidl", price := some 2 }]
    { name := "Milch", store := "Lidl", price := some 2,
      description := some "frische Vollmilch" }
    { name := "Milch", store := "Lidl", price := some 2 } (by decide)

end HowMuch
